import Mathlib

/-!
# v4l2ucp: control discovery and dispatch (`src/mainWindow.cpp`)

A shallow embedding of `MainWindow::openFile` and `MainWindow::add_control`.

* The kernel side (`v4l2_open`, `VIDIOC_QUERYCAP`, `VIDIOC_QUERYCTRL`) is an
  external collaborator.  It is a parameter of the model: a `Driver` answers a
  `VIDIOC_QUERYCTRL` request from the `id` field of the request (the only input
  field of that ioctl) with either a filled descriptor (return value `0`) or a
  failure (return value `-1`, request left untouched).
* The Qt side is modelled by its observable state: the cells added to the grid
  layout, in `addWidget` order, and the signal/slot connections made.  A widget
  is identified by its position in the layout (every widget built by the code
  below is added to the layout exactly once).
* Unbounded loops carry a fuel argument; `none` means that the loop did not
  finish within the fuel (or ran into signed overflow of its `int` counter).
-/

namespace V4l2ucp

/-! ## Kernel ABI (`linux/videodev2.h`, `linux/v4l2-controls.h`)

The structures and constants below are those of the kernel headers the program
is compiled against; the values are the ones of the Linux UAPI.
`V4L2_CID_LASTP1` grows with the header version; the statements below use it by
name. -/

/-- Descriptor `struct v4l2_queryctrl`; `id`, `type` and `flags` are `__u32`,
the four value fields are `__s32`. -/
structure v4l2_queryctrl where
  id : Nat
  type : Nat
  name : String
  minimum : Int
  maximum : Int
  step : Int
  default_value : Int
  flags : Nat
deriving DecidableEq, Repr

/-- Capability record `struct v4l2_capability` (the fields `openFile` reads). -/
structure v4l2_capability where
  driver : String
  card : String
  bus_info : String
  version : Nat
  capabilities : Nat
deriving DecidableEq, Repr

def V4L2_CTRL_TYPE_INTEGER : Nat := 1
def V4L2_CTRL_TYPE_BOOLEAN : Nat := 2
def V4L2_CTRL_TYPE_MENU : Nat := 3
def V4L2_CTRL_TYPE_BUTTON : Nat := 4
def V4L2_CTRL_TYPE_INTEGER64 : Nat := 5
def V4L2_CTRL_TYPE_CTRL_CLASS : Nat := 6

def V4L2_CTRL_FLAG_DISABLED : Nat := 0x0001
def V4L2_CTRL_FLAG_GRABBED : Nat := 0x0002
def V4L2_CTRL_FLAG_READ_ONLY : Nat := 0x0004
def V4L2_CTRL_FLAG_UPDATE : Nat := 0x0008
def V4L2_CTRL_FLAG_INACTIVE : Nat := 0x0010
def V4L2_CTRL_FLAG_SLIDER : Nat := 0x0020
def V4L2_CTRL_FLAG_NEXT_CTRL : Nat := 0x80000000

def V4L2_CTRL_CLASS_USER : Nat := 0x00980000
def V4L2_CID_BASE : Nat := V4L2_CTRL_CLASS_USER ||| 0x900
def V4L2_CID_LASTP1 : Nat := V4L2_CID_BASE + 44
def V4L2_CID_PRIVATE_BASE : Nat := 0x08000000

/-- One past the largest value of a C `int` (32 bit). -/
def INT_LIMIT : Nat := 2 ^ 31

/-- Number of values of a `__u32`. -/
def U32_MOD : Nat := 2 ^ 32

/-- Answers of the device to `VIDIOC_QUERYCTRL`, by requested id: `some c` is
return value `0` with the request overwritten by `c`, `none` is `-1`. -/
abbrev Driver := Nat → Option v4l2_queryctrl

/-- The four control widget classes of `v4l2controls.h`. -/
inductive ControlClass where
  | V4L2IntegerControl
  | V4L2BooleanControl
  | V4L2MenuControl
  | V4L2ButtonControl
deriving DecidableEq, Repr

/-- Widgets placed in the grid.  A control widget records the arguments of its
constructor and its enabled state. -/
inductive Widget where
  | QLabel (text : String) (richText : Bool)
  | QPushButton (text : String)
  | Control (cls : ControlClass) (fd : Int) (ctrl : v4l2_queryctrl) (enabled : Bool)
deriving DecidableEq, Repr

/-- The calls `setTextFormat(Qt::RichText)` and `setText(text)` on a label. -/
def Widget.setRichText (text : String) : Widget → Widget
  | Widget.QLabel _ _ => Widget.QLabel text true
  | other => other

/-- The call `setEnabled(b)` on a control widget. -/
def Widget.setEnabled (b : Bool) : Widget → Widget
  | Widget.Control cls fd ctrl _ => Widget.Control cls fd ctrl b
  | other => other

inductive Sender where
  /-- A widget of the grid, by its position in the layout. -/
  | widget (index : Nat)
  /-- The window itself (`this`). -/
  | mainWindow
  /-- The action "Reset > All" of the menu bar. -/
  | resetAllId
deriving DecidableEq, Repr

inductive Signal where
  | clicked
  | updateNow
  | triggered
deriving DecidableEq, Repr

inductive Slot where
  | updateStatus
  | resetToDefault
deriving DecidableEq, Repr

/-- One `QObject::connect(sender, SIGNAL(..), receiver, SLOT(..))`; the receiver
is a widget of the grid, by its position in the layout. -/
structure Connection where
  sender : Sender
  signal : Signal
  receiver : Nat
  slot : Slot
deriving DecidableEq, Repr

/-- The state of a `MainWindow` that `openFile` and `add_control` act on.  The
menus, the timer and the preview process built by the constructor are left out. -/
structure MainWindow where
  fd : Int
  filename : String
  windowTitle : String
  layout : List Widget
  connections : List Connection
  visible : Bool
deriving DecidableEq, Repr

namespace MainWindow

/-- The call `layout->addWidget(w)`: the widget takes the next free cell. -/
def addWidget (mw : MainWindow) (w : Widget) : MainWindow :=
  { mw with layout := mw.layout ++ [w] }

/-- The call `QObject::connect`. -/
def connect (mw : MainWindow) (c : Connection) : MainWindow :=
  { mw with connections := mw.connections ++ [c] }

/-- The calls `l->setTextFormat(Qt::RichText); l->setText(text)` on the label in cell `i`. -/
def setRichText (mw : MainWindow) (i : Nat) (text : String) : MainWindow :=
  { mw with layout := List.modify (Widget.setRichText text) i mw.layout }

/-- The call `w->setEnabled(b)` on the control in cell `i`. -/
def setEnabled (mw : MainWindow) (i : Nat) (b : Bool) : MainWindow :=
  { mw with layout := List.modify (Widget.setEnabled b) i mw.layout }

end MainWindow

/-- Modelled from the spec: the constructors of the four control classes live in
`v4l2controls.cpp`, which is not among the sources.  `new V4L2..Control(fd, ctrl,
parent, this)` yields a widget of the class that keeps `fd` and `ctrl` and is
enabled, as every `QWidget` is at construction; by the spec it is `add_control`
that marks a widget non-interactive, from the flags of the descriptor. -/
def newControl (cls : ControlClass) (fd : Int) (ctrl : v4l2_queryctrl) : Widget :=
  Widget.Control cls fd ctrl true

/-- The `switch (ctrl.type)` of `add_control`, cases that build a control widget:
the class of `w`, or `none` when `w` stays `NULL`. -/
def controlClassOf (type : Nat) : Option ControlClass :=
  if type = V4L2_CTRL_TYPE_INTEGER then some ControlClass.V4L2IntegerControl
  else if type = V4L2_CTRL_TYPE_BOOLEAN then some ControlClass.V4L2BooleanControl
  else if type = V4L2_CTRL_TYPE_MENU then some ControlClass.V4L2MenuControl
  else if type = V4L2_CTRL_TYPE_BUTTON then some ControlClass.V4L2ButtonControl
  else none

/-- Embedding of `MainWindow::add_control(ctrl, fd, parent, layout)`.  The case
labels of the `switch` are distinct constants; the class-separator case, which
returns from inside the `switch`, is tested first. -/
def add_control (fd : Int) (mw : MainWindow) (ctrl : v4l2_queryctrl) : MainWindow :=
  if ctrl.flags &&& V4L2_CTRL_FLAG_DISABLED ≠ 0 then mw
  else
    let li := mw.layout.length
    let mw := mw.addWidget (Widget.QLabel ctrl.name false)
    if ctrl.type = V4L2_CTRL_TYPE_CTRL_CLASS then
      let mw := mw.addWidget (Widget.QLabel "" false)
      let mw := mw.addWidget (Widget.QLabel "" false)
      let mw := mw.addWidget (Widget.QLabel "" false)
      mw.setRichText li ("<b>" ++ ctrl.name ++ "</b>")
    else
      match controlClassOf ctrl.type with
      | none =>
        let mw := mw.addWidget (Widget.QLabel "Unknown control" false)
        let mw := mw.addWidget (Widget.QLabel "" false)
        mw.addWidget (Widget.QLabel "" false)
      | some cls =>
        let wi := mw.layout.length
        let mw := mw.addWidget (newControl cls fd ctrl)
        let mw :=
          if ctrl.flags &&& (V4L2_CTRL_FLAG_GRABBED ||| V4L2_CTRL_FLAG_READ_ONLY
              ||| V4L2_CTRL_FLAG_INACTIVE) ≠ 0 then
            mw.setEnabled wi false
          else mw
        let pb := mw.layout.length
        let mw := mw.addWidget (Widget.QPushButton "Update")
        let mw := mw.connect ⟨Sender.widget pb, Signal.clicked, wi, Slot.updateStatus⟩
        let mw := mw.connect ⟨Sender.mainWindow, Signal.updateNow, wi, Slot.updateStatus⟩
        if ctrl.type = V4L2_CTRL_TYPE_BUTTON then
          mw.addWidget (Widget.QLabel "" false)
        else
          let pb := mw.layout.length
          let mw := mw.addWidget (Widget.QPushButton "Reset")
          let mw := mw.connect ⟨Sender.widget pb, Signal.clicked, wi, Slot.resetToDefault⟩
          mw.connect ⟨Sender.resetAllId, Signal.triggered, wi, Slot.resetToDefault⟩

/-! ## Enumeration (`openFile`, lines 193 to 223) -/

/-- The state of the enumeration: the window under construction, the local
variable `ctrl`, and two logs kept for the statements below: the ids passed to
`VIDIOC_QUERYCTRL` and the descriptors passed to `add_control`, in call order. -/
structure EnumState where
  mw : MainWindow
  ctrl : v4l2_queryctrl
  queried : List Nat
  added : List v4l2_queryctrl
deriving DecidableEq, Repr

/-- The assignment `ctrl.id = v`. -/
def EnumState.setId (s : EnumState) (v : Nat) : EnumState :=
  { s with ctrl := { s.ctrl with id := v } }

/-- The call `v4l2_ioctl(fd, VIDIOC_QUERYCTRL, &ctrl)`: `true` is return value `0`. -/
def v4l2_ioctl_QUERYCTRL (drv : Driver) (s : EnumState) : Bool × EnumState :=
  match drv s.ctrl.id with
  | some c => (true, { s with ctrl := c, queried := s.queried ++ [s.ctrl.id] })
  | none => (false, { s with queried := s.queried ++ [s.ctrl.id] })

/-- The call `mw->add_control(ctrl, fd, grid, gridLayout)`. -/
def call_add_control (fd : Int) (s : EnumState) : EnumState :=
  { s with mw := add_control fd s.mw s.ctrl, added := s.added ++ [s.ctrl] }

/-- The `do { .. } while (0 == ioctl)` loop of the extended API. -/
def extLoop (drv : Driver) (fd : Int) : Nat → EnumState → Option EnumState
  | 0, _ => none
  | fuel + 1, s =>
    let s := call_add_control fd s
    let s := s.setId ((s.ctrl.id ||| V4L2_CTRL_FLAG_NEXT_CTRL) % U32_MOD)
    match v4l2_ioctl_QUERYCTRL drv s with
    | (true, s) => extLoop drv fd fuel s
    | (false, s) => some s

/-- The loop `for (int i = V4L2_CID_BASE; i < V4L2_CID_LASTP1; i++)`, with `n`
iterations left and the counter at `i`. -/
def stdLoop (drv : Driver) (fd : Int) : Nat → Nat → EnumState → EnumState
  | 0, _, s => s
  | n + 1, i, s =>
    let s := s.setId i
    match v4l2_ioctl_QUERYCTRL drv s with
    | (true, s) => stdLoop drv fd n (i + 1) (call_add_control fd s)
    | (false, s) => stdLoop drv fd n (i + 1) s

/-- The loop `for (int i = V4L2_CID_PRIVATE_BASE;; i++)`.  Incrementing `i`
past the largest `int` is undefined; the model gives no result there. -/
def privLoop (drv : Driver) (fd : Int) : Nat → Nat → EnumState → Option EnumState
  | 0, _, _ => none
  | fuel + 1, i, s =>
    if INT_LIMIT ≤ i then none
    else
      let s := s.setId i
      match v4l2_ioctl_QUERYCTRL drv s with
      | (true, s) => privLoop drv fd fuel (i + 1) (call_add_control fd s)
      | (false, s) => some s

/-- The fallback block of `openFile` (lines 204 to 223): the scan of the
standard ids, then the scan of the private ids. -/
def fallbackScan (drv : Driver) (fd : Int) (fuel : Nat) (s : EnumState) : Option EnumState :=
  let s := stdLoop drv fd (V4L2_CID_LASTP1 - V4L2_CID_BASE) V4L2_CID_BASE s
  privLoop drv fd fuel V4L2_CID_PRIVATE_BASE s

/-- The enumeration of `openFile` (lines 193 to 223): the extended API first,
the fallback block when the first extended query fails.  The kernel headers
define `V4L2_CTRL_FLAG_NEXT_CTRL`, so the extended branch is compiled in. -/
def enumerateControls (drv : Driver) (fd : Int) (fuel : Nat) (s : EnumState) :
    Option EnumState :=
  let s := s.setId V4L2_CTRL_FLAG_NEXT_CTRL
  match v4l2_ioctl_QUERYCTRL drv s with
  | (true, s) => extLoop drv fd fuel s
  | (false, s) => fallbackScan drv fd fuel s

/-! ## `openFile` -/

/-- The text of `QString::number(n, 16)`. -/
def hexString (n : Nat) : String := String.mk (Nat.toDigits 16 n)

/-- The four cells of one header row: caption, value and two empty labels. -/
def headerRow (mw : MainWindow) (caption value : String) : MainWindow :=
  let mw := mw.addWidget (Widget.QLabel caption false)
  let mw := mw.addWidget (Widget.QLabel value false)
  let mw := mw.addWidget (Widget.QLabel "" false)
  mw.addWidget (Widget.QLabel "" false)

/-- The window as `openFile` has it when the enumeration starts (lines 131 to
191): `new MainWindow()` with `filename`, `fd` and the title set, and the five
header rows in the grid. -/
def newWindow (fd : Int) (fileName : String) (cap : v4l2_capability) : MainWindow :=
  let mw : MainWindow :=
    { fd := -1, filename := "", windowTitle := "", layout := [], connections := [],
      visible := false }
  let mw := { mw with filename := fileName }
  let mw := { mw with fd := fd }
  let mw := { mw with windowTitle := "v4l2ucp - " ++ fileName }
  let mw := headerRow mw "driver" cap.driver
  let mw := headerRow mw "card" cap.card
  let mw := headerRow mw "bus_info" cap.bus_info
  let mw := headerRow mw "version"
    (toString (cap.version >>> 16) ++ "." ++ toString ((cap.version >>> 8) &&& 0xff) ++ "."
      ++ toString (cap.version &&& 0xff))
  headerRow mw "capabilities" ("0x" ++ hexString cap.capabilities)

/-- A device with the controls `cs`, kept in ascending id order.  A plain query
answers the control with the requested id.  A query with
`V4L2_CTRL_FLAG_NEXT_CTRL` set answers, when `ext` holds, the first control whose
id is above the requested one, and fails on a device without the extended API. -/
def mockDriver (ext : Bool) (cs : List v4l2_queryctrl) : Driver := fun id =>
  if V4L2_CTRL_FLAG_NEXT_CTRL ≤ id then
    if ext then cs.find? (fun c => decide (id - V4L2_CTRL_FLAG_NEXT_CTRL < c.id)) else none
  else cs.find? (fun c => decide (c.id = id))

def intCtrl : v4l2_queryctrl :=
  { id := 1, type := V4L2_CTRL_TYPE_INTEGER, name := "int", minimum := 0, maximum := 10,
    step := 2, default_value := 4, flags := 0 }

def boolCtrl : v4l2_queryctrl :=
  { id := 2, type := V4L2_CTRL_TYPE_BOOLEAN, name := "bool", minimum := 0, maximum := 1,
    step := 1, default_value := 1, flags := 0 }

def buttonCtrl : v4l2_queryctrl :=
  { id := 3, type := V4L2_CTRL_TYPE_BUTTON, name := "button", minimum := 0, maximum := 0,
    step := 0, default_value := 0, flags := 0 }

/-- The device of the scenario: Integer id 1, Boolean id 2, Button id 3. -/
def scenarioControls : List v4l2_queryctrl := [intCtrl, boolCtrl, buttonCtrl]

/-- A menu control that is both disabled and grabbed. -/
def disabledCtrl : v4l2_queryctrl :=
  { id := 4, type := V4L2_CTRL_TYPE_MENU, name := "menu", minimum := 0, maximum := 3,
    step := 1, default_value := 0,
    flags := V4L2_CTRL_FLAG_DISABLED ||| V4L2_CTRL_FLAG_GRABBED }

/-- An integer control that is read-only and drawn as a slider. -/
def readOnlyCtrl : v4l2_queryctrl :=
  { id := 5, type := V4L2_CTRL_TYPE_INTEGER, name := "gain", minimum := 0, maximum := 255,
    step := 1, default_value := 0,
    flags := V4L2_CTRL_FLAG_READ_ONLY ||| V4L2_CTRL_FLAG_SLIDER }

/-- A 64-bit integer control. -/
def int64Ctrl : v4l2_queryctrl :=
  { id := 6, type := V4L2_CTRL_TYPE_INTEGER64, name := "pts", minimum := 0, maximum := 0,
    step := 0, default_value := 0, flags := 0 }

def ctrlZero : v4l2_queryctrl :=
  { id := 0, type := 0, name := "", minimum := 0, maximum := 0, step := 0, default_value := 0,
    flags := 0 }

def capZero : v4l2_capability :=
  { driver := "mock", card := "mock card", bus_info := "bus", version := 0x060100,
    capabilities := 0x84200001 }

/-! ## Closed forms used in the statements -/

/-- The test `ctrl.flags & V4L2_CTRL_FLAG_DISABLED`. -/
def isDisabled (ctrl : v4l2_queryctrl) : Bool :=
  decide (ctrl.flags &&& V4L2_CTRL_FLAG_DISABLED ≠ 0)

/-- The four cells `add_control` puts in the grid for a descriptor that is not disabled. -/
def rowWidgets (fd : Int) (ctrl : v4l2_queryctrl) : List Widget :=
  if ctrl.type = V4L2_CTRL_TYPE_CTRL_CLASS then
    [Widget.QLabel ("<b>" ++ ctrl.name ++ "</b>") true, Widget.QLabel "" false,
     Widget.QLabel "" false, Widget.QLabel "" false]
  else
    match controlClassOf ctrl.type with
    | none =>
      [Widget.QLabel ctrl.name false, Widget.QLabel "Unknown control" false,
       Widget.QLabel "" false, Widget.QLabel "" false]
    | some cls =>
      [Widget.QLabel ctrl.name false,
       Widget.Control cls fd ctrl
         (decide (ctrl.flags &&& (V4L2_CTRL_FLAG_GRABBED ||| V4L2_CTRL_FLAG_READ_ONLY
            ||| V4L2_CTRL_FLAG_INACTIVE) = 0)),
       Widget.QPushButton "Update",
       if ctrl.type = V4L2_CTRL_TYPE_BUTTON then Widget.QLabel "" false
       else Widget.QPushButton "Reset"]

/-- The connections `add_control` makes for a descriptor that is not disabled,
when its row starts at cell `n`. -/
def rowConnections (n : Nat) (ctrl : v4l2_queryctrl) : List Connection :=
  if ctrl.type = V4L2_CTRL_TYPE_CTRL_CLASS then []
  else
    match controlClassOf ctrl.type with
    | none => []
    | some _ =>
      [⟨Sender.widget (n + 2), Signal.clicked, n + 1, Slot.updateStatus⟩,
       ⟨Sender.mainWindow, Signal.updateNow, n + 1, Slot.updateStatus⟩] ++
      (if ctrl.type = V4L2_CTRL_TYPE_BUTTON then []
       else
        [⟨Sender.widget (n + 3), Signal.clicked, n + 1, Slot.resetToDefault⟩,
         ⟨Sender.resetAllId, Signal.triggered, n + 1, Slot.resetToDefault⟩])

/-- The cells of a layout that hold a control widget whose class satisfies `p`,
as positions counted from `n`. -/
def controlCellsFrom (p : ControlClass → Bool) : Nat → List Widget → List Nat
  | _, [] => []
  | n, Widget.Control cls _ _ _ :: ws =>
    if p cls then n :: controlCellsFrom p (n + 1) ws else controlCellsFrom p (n + 1) ws
  | n, Widget.QLabel _ _ :: ws => controlCellsFrom p (n + 1) ws
  | n, Widget.QPushButton _ :: ws => controlCellsFrom p (n + 1) ws

/-- The receivers connected to signal `sig` of `snd`, each with the slot it is
connected to, in connection order. -/
def receiversOf (snd : Sender) (sig : Signal) (cs : List Connection) : List (Nat × Slot) :=
  (cs.filter (fun c => decide (c.sender = snd ∧ c.signal = sig))).map
    (fun c => (c.receiver, c.slot))

/-- Integer, Boolean and Menu controls. -/
def isValueControl : ControlClass → Bool
  | ControlClass.V4L2IntegerControl => true
  | ControlClass.V4L2BooleanControl => true
  | ControlClass.V4L2MenuControl => true
  | ControlClass.V4L2ButtonControl => false

/-- Integer, Boolean, Menu and Button controls, that is every control class. -/
def isAnyControl : ControlClass → Bool
  | ControlClass.V4L2IntegerControl => true
  | ControlClass.V4L2BooleanControl => true
  | ControlClass.V4L2MenuControl => true
  | ControlClass.V4L2ButtonControl => true

/-- The id of the extended query that follows the query of `q`: the id the
driver returned, with `V4L2_CTRL_FLAG_NEXT_CTRL` or-ed in.  After a failing
query there is no next one; `q` is kept. -/
def nextQuery (drv : Driver) (q : Nat) : Nat :=
  match drv q with
  | some c => (c.id ||| V4L2_CTRL_FLAG_NEXT_CTRL) % U32_MOD
  | none => q

/-- The ids of the extended queries, in order: the first is
`V4L2_CTRL_FLAG_NEXT_CTRL`, each later one follows from the answer to the one
before it. -/
def extIds (drv : Driver) : Nat → Nat
  | 0 => V4L2_CTRL_FLAG_NEXT_CTRL
  | k + 1 => nextQuery drv (extIds drv k)

/-- A standard control: brightness, the first id of the standard range. -/
def brightnessCtrl : v4l2_queryctrl :=
  { id := V4L2_CID_BASE, type := V4L2_CTRL_TYPE_INTEGER, name := "Brightness", minimum := 0,
    maximum := 255, step := 1, default_value := 128, flags := 0 }

/-- A private control with the first private id. -/
def privateCtrl : v4l2_queryctrl :=
  { id := V4L2_CID_PRIVATE_BASE, type := V4L2_CTRL_TYPE_BOOLEAN, name := "Night mode",
    minimum := 0, maximum := 1, step := 1, default_value := 0, flags := 0 }

/-- A device with one standard and one private control. -/
def legacyControls : List v4l2_queryctrl := [brightnessCtrl, privateCtrl]

/-- The state in which the enumeration of the mock device starts. -/
def startState : EnumState :=
  { mw := newWindow 3 "/dev/video0" capZero, ctrl := ctrlZero, queried := [], added := [] }

/-- State `t` continues state `s` by the queries `qs` and the `add_control` calls `cs`. -/
def Continues (fd : Int) (s t : EnumState) (qs : List Nat) (cs : List v4l2_queryctrl) : Prop :=
  t.queried = s.queried ++ qs ∧ t.added = s.added ++ cs ∧
    t.mw = cs.foldl (add_control fd) s.mw

/-! ## Lemmas -/

theorem modify_append_length {α : Type} (f : α → α) (l r : List α) (k : Nat) :
    List.modify f (l.length + k) (l ++ r) = l ++ List.modify f k r := by
  induction l with
  | nil => simp
  | cons a l ih =>
    have : (a :: l).length + k = (l.length + k) + 1 := by simp; omega
    rw [this]
    simp [List.modify_succ_cons, ih]

theorem add_control_eq (fd : Int) (mw : MainWindow) (ctrl : v4l2_queryctrl) :
    add_control fd mw ctrl =
      if isDisabled ctrl then mw
      else { mw with layout := mw.layout ++ rowWidgets fd ctrl,
                     connections := mw.connections ++ rowConnections mw.layout.length ctrl } := by
  unfold add_control isDisabled rowWidgets rowConnections
  by_cases hd : ctrl.flags &&& V4L2_CTRL_FLAG_DISABLED ≠ 0
  · simp [hd]
  · simp only [hd, if_false, decide_False]
    by_cases hc : ctrl.type = V4L2_CTRL_TYPE_CTRL_CLASS
    · simp only [hc, if_true, MainWindow.addWidget, MainWindow.setRichText, List.append_assoc]
      have := modify_append_length (Widget.setRichText ("<b>" ++ ctrl.name ++ "</b>")) mw.layout
        ([Widget.QLabel ctrl.name false] ++ ([Widget.QLabel "" false] ++ ([Widget.QLabel "" false] ++ [Widget.QLabel "" false]))) 0
      simp only [Nat.add_zero] at this
      rw [this]
      simp [Widget.setRichText]
    · simp only [hc, if_false]
      cases hk : controlClassOf ctrl.type with
      | none => simp [MainWindow.addWidget]
      | some cls =>
        have hm := modify_append_length (Widget.setEnabled false) mw.layout
          [Widget.QLabel ctrl.name false, Widget.Control cls fd ctrl true] 1
        by_cases hf : ctrl.flags &&& (V4L2_CTRL_FLAG_GRABBED ||| V4L2_CTRL_FLAG_READ_ONLY
              ||| V4L2_CTRL_FLAG_INACTIVE) ≠ 0
        · by_cases hb : ctrl.type = V4L2_CTRL_TYPE_BUTTON
          · simp [MainWindow.addWidget, MainWindow.setEnabled, MainWindow.connect, hf, hb, hm,
              Widget.setEnabled, newControl]
          · simp [MainWindow.addWidget, MainWindow.setEnabled, MainWindow.connect, hf, hb, hm,
              Widget.setEnabled, newControl]
        · have hf0 : ctrl.flags &&& (V4L2_CTRL_FLAG_GRABBED ||| V4L2_CTRL_FLAG_READ_ONLY
              ||| V4L2_CTRL_FLAG_INACTIVE) = 0 := by simpa using hf
          by_cases hb : ctrl.type = V4L2_CTRL_TYPE_BUTTON
          · simp [MainWindow.addWidget, MainWindow.connect, hf0, hb, newControl]
          · simp [MainWindow.addWidget, MainWindow.connect, hf0, hb, newControl]

theorem lor_eq_zero_iff (a b : Nat) : a ||| b = 0 ↔ a = 0 ∧ b = 0 := by
  constructor
  · intro h
    have hb : ∀ i, (a.testBit i || b.testBit i) = false := by
      intro i
      have := congrArg (fun x => Nat.testBit x i) h
      simpa using this
    constructor
    · apply Nat.eq_of_testBit_eq
      intro i
      have := hb i
      simp only [Bool.or_eq_false_iff] at this
      simp [this.1]
    · apply Nat.eq_of_testBit_eq
      intro i
      have := hb i
      simp only [Bool.or_eq_false_iff] at this
      simp [this.2]
  · rintro ⟨rfl, rfl⟩
    simp

theorem and_mask_eq_zero_iff (x a b c : Nat) :
    x &&& (a ||| b ||| c) = 0 ↔ x &&& a = 0 ∧ x &&& b = 0 ∧ x &&& c = 0 := by
  rw [Nat.and_or_distrib_left, Nat.and_or_distrib_left, lor_eq_zero_iff, lor_eq_zero_iff,
    and_assoc]

theorem isDisabled_eq_true_iff (ctrl : v4l2_queryctrl) :
    isDisabled ctrl = true ↔ ctrl.flags &&& V4L2_CTRL_FLAG_DISABLED ≠ 0 := by
  simp [isDisabled]

theorem isDisabled_eq_false_iff (ctrl : v4l2_queryctrl) :
    isDisabled ctrl = false ↔ ctrl.flags &&& V4L2_CTRL_FLAG_DISABLED = 0 := by
  simp [isDisabled]

theorem add_control_of_disabled (fd : Int) (mw : MainWindow) (ctrl : v4l2_queryctrl)
    (h : isDisabled ctrl = true) : add_control fd mw ctrl = mw := by
  rw [add_control_eq, if_pos h]

theorem add_control_of_enabled (fd : Int) (mw : MainWindow) (ctrl : v4l2_queryctrl)
    (h : isDisabled ctrl = false) :
    add_control fd mw ctrl =
      { mw with layout := mw.layout ++ rowWidgets fd ctrl,
                connections := mw.connections ++ rowConnections mw.layout.length ctrl } := by
  rw [add_control_eq, h]
  simp

theorem rowWidgets_length (fd : Int) (ctrl : v4l2_queryctrl) :
    (rowWidgets fd ctrl).length = 4 := by
  unfold rowWidgets
  split
  · rfl
  · split <;> rfl

theorem add_control_layout_length (fd : Int) (mw : MainWindow) (ctrl : v4l2_queryctrl) :
    (add_control fd mw ctrl).layout.length =
      mw.layout.length + (if isDisabled ctrl then 0 else 4) := by
  cases h : isDisabled ctrl
  · rw [add_control_of_enabled fd mw ctrl h]
    simp [rowWidgets_length]
  · rw [add_control_of_disabled fd mw ctrl h]
    simp

theorem headerRow_layout (mw : MainWindow) (a b : String) :
    (headerRow mw a b).layout =
      mw.layout ++ [Widget.QLabel a false, Widget.QLabel b false, Widget.QLabel "" false,
        Widget.QLabel "" false] := by
  simp [headerRow, MainWindow.addWidget]

theorem headerRow_connections (mw : MainWindow) (a b : String) :
    (headerRow mw a b).connections = mw.connections := by
  simp [headerRow, MainWindow.addWidget]

theorem newWindow_layout_length (fd : Int) (name : String) (cap : v4l2_capability) :
    (newWindow fd name cap).layout.length = 20 := by
  simp only [newWindow, headerRow_layout, List.length_append, List.length_cons, List.length_nil]

theorem newWindow_connections (fd : Int) (name : String) (cap : v4l2_capability) :
    (newWindow fd name cap).connections = [] := by
  simp only [newWindow, headerRow_connections]

theorem foldl_add_control_length_mod (fd : Int) (ds : List v4l2_queryctrl) (mw : MainWindow)
    (h : mw.layout.length % 4 = 0) :
    (ds.foldl (add_control fd) mw).layout.length % 4 = 0 := by
  induction ds generalizing mw with
  | nil => simpa using h
  | cons d ds ih =>
    rw [List.foldl_cons]
    apply ih
    rw [add_control_layout_length]
    split <;> omega

theorem controlCellsFrom_append (p : ControlClass → Bool) (l r : List Widget) (n : Nat) :
    controlCellsFrom p n (l ++ r) =
      controlCellsFrom p n l ++ controlCellsFrom p (n + l.length) r := by
  induction l generalizing n with
  | nil => simp [controlCellsFrom]
  | cons w l ih =>
    have e : n + (w :: l).length = n + 1 + l.length := by simp; omega
    rw [e]
    cases w with
    | QLabel t b =>
      simp only [List.cons_append, controlCellsFrom]
      exact ih (n + 1)
    | QPushButton t =>
      simp only [List.cons_append, controlCellsFrom]
      exact ih (n + 1)
    | Control cls fd c en =>
      simp only [List.cons_append, controlCellsFrom]
      split
      · exact congrArg (fun t => n :: t) (ih (n + 1))
      · exact ih (n + 1)

theorem receiversOf_append (snd : Sender) (sig : Signal) (a b : List Connection) :
    receiversOf snd sig (a ++ b) = receiversOf snd sig a ++ receiversOf snd sig b := by
  simp [receiversOf]

theorem controlClassOf_button_iff (t : Nat) :
    controlClassOf t = some ControlClass.V4L2ButtonControl ↔ t = V4L2_CTRL_TYPE_BUTTON := by
  unfold controlClassOf
  constructor
  · intro h
    split at h
    · simp at h
    · split at h
      · simp at h
      · split at h
        · simp at h
        · split at h
          · assumption
          · simp at h
  · intro h
    subst h
    decide

theorem row_reset_receivers (fd : Int) (n : Nat) (ctrl : v4l2_queryctrl) :
    receiversOf Sender.resetAllId Signal.triggered (rowConnections n ctrl) =
      (controlCellsFrom isValueControl n (rowWidgets fd ctrl)).map
        (fun i => (i, Slot.resetToDefault)) := by
  unfold rowConnections rowWidgets
  by_cases hc : ctrl.type = V4L2_CTRL_TYPE_CTRL_CLASS
  · simp [hc, receiversOf, controlCellsFrom]
  · simp only [hc, if_false]
    cases hk : controlClassOf ctrl.type with
    | none => simp [receiversOf, controlCellsFrom]
    | some cls =>
      by_cases hb : ctrl.type = V4L2_CTRL_TYPE_BUTTON
      · have : cls = ControlClass.V4L2ButtonControl := by
          have := (controlClassOf_button_iff ctrl.type).2 hb
          rw [hk] at this
          exact Option.some.inj this
        subst this
        simp [hb, receiversOf, controlCellsFrom, isValueControl]
      · have hne : cls ≠ ControlClass.V4L2ButtonControl := by
          intro h
          subst h
          exact hb ((controlClassOf_button_iff ctrl.type).1 hk)
        have hv : isValueControl cls = true := by
          cases cls <;> first | rfl | exact absurd rfl hne
        simp [hb, receiversOf, controlCellsFrom, hv]

theorem row_update_receivers (fd : Int) (n : Nat) (ctrl : v4l2_queryctrl) :
    receiversOf Sender.mainWindow Signal.updateNow (rowConnections n ctrl) =
      (controlCellsFrom isAnyControl n (rowWidgets fd ctrl)).map
        (fun i => (i, Slot.updateStatus)) := by
  unfold rowConnections rowWidgets
  by_cases hc : ctrl.type = V4L2_CTRL_TYPE_CTRL_CLASS
  · simp [hc, receiversOf, controlCellsFrom]
  · simp only [hc, if_false]
    cases hk : controlClassOf ctrl.type with
    | none => simp [receiversOf, controlCellsFrom]
    | some cls =>
      have hv : isAnyControl cls = true := by cases cls <;> rfl
      by_cases hb : ctrl.type = V4L2_CTRL_TYPE_BUTTON
      · simp [hb, receiversOf, controlCellsFrom, hv]
      · simp [hb, receiversOf, controlCellsFrom, hv]

/-- The subscription invariant of a window: the receivers of the two broadcast
triggers are the control cells of the layout. -/
theorem subscriptions_step (fd : Int) (mw : MainWindow) (ctrl : v4l2_queryctrl)
    (h1 : receiversOf Sender.resetAllId Signal.triggered mw.connections =
      (controlCellsFrom isValueControl 0 mw.layout).map (fun i => (i, Slot.resetToDefault)))
    (h2 : receiversOf Sender.mainWindow Signal.updateNow mw.connections =
      (controlCellsFrom isAnyControl 0 mw.layout).map (fun i => (i, Slot.updateStatus))) :
    receiversOf Sender.resetAllId Signal.triggered (add_control fd mw ctrl).connections =
      (controlCellsFrom isValueControl 0 (add_control fd mw ctrl).layout).map
        (fun i => (i, Slot.resetToDefault)) ∧
    receiversOf Sender.mainWindow Signal.updateNow (add_control fd mw ctrl).connections =
      (controlCellsFrom isAnyControl 0 (add_control fd mw ctrl).layout).map
        (fun i => (i, Slot.updateStatus)) := by
  cases h : isDisabled ctrl
  · rw [add_control_of_enabled fd mw ctrl h]
    simp only [receiversOf_append, controlCellsFrom_append, List.map_append, h1, h2,
      Nat.zero_add, row_reset_receivers fd, row_update_receivers fd]
    simp
  · rw [add_control_of_disabled fd mw ctrl h]
    exact ⟨h1, h2⟩

theorem subscriptions_foldl (fd : Int) (ds : List v4l2_queryctrl) (mw : MainWindow)
    (h1 : receiversOf Sender.resetAllId Signal.triggered mw.connections =
      (controlCellsFrom isValueControl 0 mw.layout).map (fun i => (i, Slot.resetToDefault)))
    (h2 : receiversOf Sender.mainWindow Signal.updateNow mw.connections =
      (controlCellsFrom isAnyControl 0 mw.layout).map (fun i => (i, Slot.updateStatus))) :
    receiversOf Sender.resetAllId Signal.triggered (ds.foldl (add_control fd) mw).connections =
      (controlCellsFrom isValueControl 0 (ds.foldl (add_control fd) mw).layout).map
        (fun i => (i, Slot.resetToDefault)) ∧
    receiversOf Sender.mainWindow Signal.updateNow (ds.foldl (add_control fd) mw).connections =
      (controlCellsFrom isAnyControl 0 (ds.foldl (add_control fd) mw).layout).map
        (fun i => (i, Slot.updateStatus)) := by
  induction ds generalizing mw with
  | nil => exact ⟨h1, h2⟩
  | cons d ds ih =>
    rw [List.foldl_cons]
    have := subscriptions_step fd mw d h1 h2
    exact ih _ this.1 this.2

theorem headerRow_no_controls (p : ControlClass → Bool) (mw : MainWindow) (a b : String) :
    controlCellsFrom p 0 (headerRow mw a b).layout = controlCellsFrom p 0 mw.layout := by
  rw [headerRow_layout, controlCellsFrom_append]
  simp only [controlCellsFrom, List.append_nil]

theorem newWindow_no_controls (p : ControlClass → Bool) (fd : Int) (name : String)
    (cap : v4l2_capability) : controlCellsFrom p 0 (newWindow fd name cap).layout = [] := by
  unfold newWindow
  simp only [headerRow_no_controls]
  rfl

/-! ### The loops of the enumeration -/

theorem ioctl_some (drv : Driver) (s : EnumState) (c : v4l2_queryctrl)
    (h : drv s.ctrl.id = some c) :
    v4l2_ioctl_QUERYCTRL drv s =
      (true, { s with ctrl := c, queried := s.queried ++ [s.ctrl.id] }) := by
  simp [v4l2_ioctl_QUERYCTRL, h]

theorem ioctl_none (drv : Driver) (s : EnumState) (h : drv s.ctrl.id = none) :
    v4l2_ioctl_QUERYCTRL drv s = (false, { s with queried := s.queried ++ [s.ctrl.id] }) := by
  simp [v4l2_ioctl_QUERYCTRL, h]

theorem continues_refl (fd : Int) (s : EnumState) : Continues fd s s [] [] := by
  simp [Continues]

theorem continues_trans (fd : Int) (s t u : EnumState) (qs qs2 : List Nat)
    (cs cs2 : List v4l2_queryctrl) (h1 : Continues fd s t qs cs)
    (h2 : Continues fd t u qs2 cs2) : Continues fd s u (qs ++ qs2) (cs ++ cs2) := by
  obtain ⟨a1, a2, a3⟩ := h1
  obtain ⟨b1, b2, b3⟩ := h2
  refine ⟨?_, ?_, ?_⟩
  · rw [b1, a1, List.append_assoc]
  · rw [b2, a2, List.append_assoc]
  · rw [b3, a3, List.foldl_append]

theorem stdLoop_spec (drv : Driver) (fd : Int) (n i : Nat) (s : EnumState) :
    Continues fd s (stdLoop drv fd n i s) (List.range' i n) ((List.range' i n).filterMap drv) := by
  induction n generalizing i s with
  | zero => simpa [stdLoop] using continues_refl fd s
  | succ n ih =>
    rw [stdLoop]
    cases hq : drv i with
    | none =>
      have e : v4l2_ioctl_QUERYCTRL drv (s.setId i) =
          (false, { s.setId i with queried := (s.setId i).queried ++ [i] }) :=
        ioctl_none drv (s.setId i) hq
      simp only [e]
      have := ih (i + 1) { s.setId i with queried := (s.setId i).queried ++ [i] }
      have h0 : Continues fd s { s.setId i with queried := (s.setId i).queried ++ [i] } [i] [] := by
        simp [Continues, EnumState.setId]
      have := continues_trans fd _ _ _ _ _ _ _ h0 this
      simpa [List.range'_succ, hq] using this
    | some c =>
      have e : v4l2_ioctl_QUERYCTRL drv (s.setId i) =
          (true, { s.setId i with ctrl := c, queried := (s.setId i).queried ++ [i] }) :=
        ioctl_some drv (s.setId i) c hq
      simp only [e]
      have := ih (i + 1)
        (call_add_control fd { s.setId i with ctrl := c, queried := (s.setId i).queried ++ [i] })
      have h0 : Continues fd s
          (call_add_control fd
            { s.setId i with ctrl := c, queried := (s.setId i).queried ++ [i] }) [i] [c] := by
        simp [Continues, EnumState.setId, call_add_control]
      have := continues_trans fd _ _ _ _ _ _ _ h0 this
      simpa [List.range'_succ, hq] using this

theorem privLoop_spec (drv : Driver) (fd : Int) (n : Nat) :
    ∀ (fuel i : Nat) (s : EnumState), (∀ k, k < n → (drv (i + k)).isSome = true) →
      drv (i + n) = none → i + n < INT_LIMIT → n < fuel →
      ∃ t, privLoop drv fd fuel i s = some t ∧
        Continues fd s t (List.range' i (n + 1)) ((List.range' i n).filterMap drv) := by
  induction n with
  | zero =>
    intro fuel i s _ hnone hlim hfuel
    obtain ⟨fuel, rfl⟩ : ∃ f, fuel = f + 1 := ⟨fuel - 1, by omega⟩
    have hq : drv (s.setId i).ctrl.id = none := by simpa [EnumState.setId] using hnone
    refine ⟨{ s.setId i with queried := (s.setId i).queried ++ [i] }, ?_, ?_⟩
    · rw [privLoop, if_neg (by omega)]
      simp only [ioctl_none drv (s.setId i) hq]
      simp [EnumState.setId]
    · simp [Continues, EnumState.setId]
  | succ n ih =>
    intro fuel i s hok hnone hlim hfuel
    obtain ⟨fuel, rfl⟩ : ∃ f, fuel = f + 1 := ⟨fuel - 1, by omega⟩
    have h0 := hok 0 (by omega)
    rw [Nat.add_zero, Option.isSome_iff_exists] at h0
    obtain ⟨c, hc⟩ := h0
    have hq : drv (s.setId i).ctrl.id = some c := by simpa [EnumState.setId] using hc
    obtain ⟨t, ht, hcont⟩ := ih fuel (i + 1)
      (call_add_control fd { s.setId i with ctrl := c, queried := (s.setId i).queried ++ [i] })
      (fun k hk => by
        have := hok (k + 1) (by omega)
        rwa [show i + (k + 1) = i + 1 + k by omega] at this)
      (by rwa [show i + 1 + n = i + (n + 1) by omega])
      (by omega) (by omega)
    refine ⟨t, ?_, ?_⟩
    · rw [privLoop, if_neg (by omega)]
      simp only [ioctl_some drv (s.setId i) c hq]
      simpa [EnumState.setId] using ht
    · have h1 : Continues fd s
          (call_add_control fd
            { s.setId i with ctrl := c, queried := (s.setId i).queried ++ [i] }) [i] [c] := by
        simp [Continues, EnumState.setId, call_add_control]
      have := continues_trans fd _ _ _ _ _ _ _ h1 hcont
      rw [List.range'_succ i (n + 1), List.range'_succ i n]
      simpa [hc] using this

theorem extIds_eq_iterate (drv : Driver) (k : Nat) :
    extIds drv k = (nextQuery drv)^[k] V4L2_CTRL_FLAG_NEXT_CTRL := by
  induction k with
  | zero => rfl
  | succ k ih => rw [extIds, ih, Function.iterate_succ_apply']

theorem nextQuery_of_some (drv : Driver) (q : Nat) (c : v4l2_queryctrl) (h : drv q = some c) :
    nextQuery drv q = (c.id ||| V4L2_CTRL_FLAG_NEXT_CTRL) % U32_MOD := by
  simp [nextQuery, h]

theorem nextQuery_of_none (drv : Driver) (q : Nat) (h : drv q = none) :
    nextQuery drv q = q := by
  simp [nextQuery, h]

theorem extLoop_unfold (drv : Driver) (fd : Int) (fuel : Nat) (s : EnumState) :
    extLoop drv fd (fuel + 1) s =
      match v4l2_ioctl_QUERYCTRL drv ((call_add_control fd s).setId
          ((s.ctrl.id ||| V4L2_CTRL_FLAG_NEXT_CTRL) % U32_MOD)) with
      | (true, t) => extLoop drv fd fuel t
      | (false, t) => some t := by
  rw [extLoop]
  rfl

/-- The state of the extended loop after one pass whose query succeeds with `c`. -/
theorem extLoop_step_some (drv : Driver) (fd : Int) (fuel : Nat) (s : EnumState)
    (c : v4l2_queryctrl)
    (h : drv ((s.ctrl.id ||| V4L2_CTRL_FLAG_NEXT_CTRL) % U32_MOD) = some c) :
    ∃ t, extLoop drv fd (fuel + 1) s = extLoop drv fd fuel t ∧ t.ctrl = c ∧
      Continues fd s t [(s.ctrl.id ||| V4L2_CTRL_FLAG_NEXT_CTRL) % U32_MOD] [s.ctrl] := by
  have hq : drv ((call_add_control fd s).setId
      ((s.ctrl.id ||| V4L2_CTRL_FLAG_NEXT_CTRL) % U32_MOD)).ctrl.id = some c := by
    simpa [EnumState.setId, call_add_control] using h
  refine ⟨{ (call_add_control fd s).setId
      ((s.ctrl.id ||| V4L2_CTRL_FLAG_NEXT_CTRL) % U32_MOD) with
      ctrl := c
      queried := (call_add_control fd s).queried ++
        [(s.ctrl.id ||| V4L2_CTRL_FLAG_NEXT_CTRL) % U32_MOD] }, ?_, ?_, ?_⟩
  · rw [extLoop_unfold, ioctl_some drv _ c hq]
    rfl
  · rfl
  · simp [Continues, EnumState.setId, call_add_control]

/-- The state of the extended loop after the pass whose query fails. -/
theorem extLoop_step_none (drv : Driver) (fd : Int) (fuel : Nat) (s : EnumState)
    (h : drv ((s.ctrl.id ||| V4L2_CTRL_FLAG_NEXT_CTRL) % U32_MOD) = none) :
    ∃ t, extLoop drv fd (fuel + 1) s = some t ∧
      Continues fd s t [(s.ctrl.id ||| V4L2_CTRL_FLAG_NEXT_CTRL) % U32_MOD] [s.ctrl] := by
  have hq : drv ((call_add_control fd s).setId
      ((s.ctrl.id ||| V4L2_CTRL_FLAG_NEXT_CTRL) % U32_MOD)).ctrl.id = none := by
    simpa [EnumState.setId, call_add_control] using h
  refine ⟨{ (call_add_control fd s).setId
      ((s.ctrl.id ||| V4L2_CTRL_FLAG_NEXT_CTRL) % U32_MOD) with
      queried := (call_add_control fd s).queried ++
        [(s.ctrl.id ||| V4L2_CTRL_FLAG_NEXT_CTRL) % U32_MOD] }, ?_, ?_⟩
  · rw [extLoop_unfold, ioctl_none drv _ hq]
    rfl
  · simp [Continues, EnumState.setId, call_add_control]

theorem extLoop_spec (drv : Driver) (fd : Int) (n : Nat) :
    ∀ (fuel : Nat) (s : EnumState) (q : Nat), drv q = some s.ctrl →
      (∀ k, k < n → (drv ((nextQuery drv)^[k + 1] q)).isSome = true) →
      drv ((nextQuery drv)^[n + 1] q) = none → n < fuel →
      ∃ t, extLoop drv fd fuel s = some t ∧
        Continues fd s t ((List.range (n + 1)).map (fun k => (nextQuery drv)^[k + 1] q))
          ((List.range (n + 1)).filterMap (fun k => drv ((nextQuery drv)^[k] q))) := by
  induction n with
  | zero =>
    intro fuel s q hq _ hnone hfuel
    obtain ⟨fuel, rfl⟩ : ∃ f, fuel = f + 1 := ⟨fuel - 1, by omega⟩
    have hn : nextQuery drv q = (s.ctrl.id ||| V4L2_CTRL_FLAG_NEXT_CTRL) % U32_MOD :=
      nextQuery_of_some drv q s.ctrl hq
    simp only [Nat.zero_add, Function.iterate_one, hn] at hnone
    obtain ⟨t, ht, hc⟩ := extLoop_step_none drv fd fuel s hnone
    refine ⟨t, ht, ?_⟩
    have e1 : List.range (0 + 1) = [0] := rfl
    rw [e1]
    simpa [hn, hq] using hc
  | succ n ih =>
    intro fuel s q hq hok hnone hfuel
    obtain ⟨fuel, rfl⟩ : ∃ f, fuel = f + 1 := ⟨fuel - 1, by omega⟩
    have hn : nextQuery drv q = (s.ctrl.id ||| V4L2_CTRL_FLAG_NEXT_CTRL) % U32_MOD :=
      nextQuery_of_some drv q s.ctrl hq
    have h0 := hok 0 (by omega)
    simp only [Nat.zero_add, Function.iterate_one] at h0
    rw [Option.isSome_iff_exists] at h0
    obtain ⟨c, hc⟩ := h0
    obtain ⟨s2, hs2, hctrl, hcont1⟩ := extLoop_step_some drv fd fuel s c (by rwa [hn] at hc)
    obtain ⟨t, ht, hcont⟩ := ih fuel s2 (nextQuery drv q) (by rw [hctrl]; exact hc)
      (fun k hk => by
        have := hok (k + 1) (by omega)
        rwa [Function.iterate_succ_apply] at this)
      (by rwa [Function.iterate_succ_apply] at hnone)
      (by omega)
    refine ⟨t, by rw [hs2]; exact ht, ?_⟩
    have := continues_trans fd _ _ _ _ _ _ _ hcont1 hcont
    rw [List.range_succ_eq_map (n + 1)]
    simp only [List.map_cons, List.map_map, List.filterMap_cons, List.filterMap_map,
      Function.iterate_zero, id_eq, hq, Function.iterate_one]
    simpa [Function.comp_def, Function.iterate_succ_apply, hn] using this

theorem enumerate_of_first_some (drv : Driver) (fd : Int) (fuel : Nat) (s : EnumState)
    (c : v4l2_queryctrl) (h : drv V4L2_CTRL_FLAG_NEXT_CTRL = some c) :
    ∃ t, enumerateControls drv fd fuel s = extLoop drv fd fuel t ∧ t.ctrl = c ∧
      Continues fd s t [V4L2_CTRL_FLAG_NEXT_CTRL] [] := by
  have hq : drv (s.setId V4L2_CTRL_FLAG_NEXT_CTRL).ctrl.id = some c := by
    simpa [EnumState.setId] using h
  refine ⟨{ s.setId V4L2_CTRL_FLAG_NEXT_CTRL with
      ctrl := c, queried := s.queried ++ [V4L2_CTRL_FLAG_NEXT_CTRL] }, ?_, ?_, ?_⟩
  · rw [enumerateControls]
    simp only [ioctl_some drv _ c hq]
    rfl
  · rfl
  · simp [Continues, EnumState.setId]

theorem enumerate_first_none_eq (drv : Driver) (fd : Int) (fuel : Nat) (s : EnumState)
    (h : drv V4L2_CTRL_FLAG_NEXT_CTRL = none) :
    ∃ t, enumerateControls drv fd fuel s = fallbackScan drv fd fuel t ∧
      Continues fd s t [V4L2_CTRL_FLAG_NEXT_CTRL] [] := by
  have hq : drv (s.setId V4L2_CTRL_FLAG_NEXT_CTRL).ctrl.id = none := by
    simpa [EnumState.setId] using h
  refine ⟨{ s.setId V4L2_CTRL_FLAG_NEXT_CTRL with
      queried := s.queried ++ [V4L2_CTRL_FLAG_NEXT_CTRL] }, ?_, ?_⟩
  · rw [enumerateControls]
    simp only [ioctl_none drv _ hq]
    rfl
  · simp [Continues, EnumState.setId]

theorem fallbackScan_eq (drv : Driver) (fd : Int) (fuel : Nat) (s : EnumState) :
    ∃ t, fallbackScan drv fd fuel s = privLoop drv fd fuel V4L2_CID_PRIVATE_BASE t ∧
      Continues fd s t (List.range' V4L2_CID_BASE (V4L2_CID_LASTP1 - V4L2_CID_BASE))
        ((List.range' V4L2_CID_BASE (V4L2_CID_LASTP1 - V4L2_CID_BASE)).filterMap drv) :=
  ⟨_, rfl, stdLoop_spec drv fd _ _ s⟩

theorem enumerate_of_first_none (drv : Driver) (fd : Int) (fuel : Nat) (s : EnumState)
    (h : drv V4L2_CTRL_FLAG_NEXT_CTRL = none) :
    ∃ t, enumerateControls drv fd fuel s = privLoop drv fd fuel V4L2_CID_PRIVATE_BASE t ∧
      Continues fd s t
        (V4L2_CTRL_FLAG_NEXT_CTRL :: List.range' V4L2_CID_BASE (V4L2_CID_LASTP1 - V4L2_CID_BASE))
        ((List.range' V4L2_CID_BASE (V4L2_CID_LASTP1 - V4L2_CID_BASE)).filterMap drv) := by
  obtain ⟨s1, hs1, hc1⟩ := enumerate_first_none_eq drv fd fuel s h
  obtain ⟨t, ht, hc2⟩ := fallbackScan_eq drv fd fuel s1
  exact ⟨t, by rw [hs1, ht], by simpa using continues_trans fd _ _ _ _ _ _ _ hc1 hc2⟩

/-- The extended path: when the queries `extIds drv 0`, .., `extIds drv n`
succeed and the next one fails, the enumeration ends after these `n + 2` queries
with the `n + 1` answers passed to `add_control`. -/
theorem enumerate_ext_spec (drv : Driver) (fd : Int) (n fuel : Nat) (s : EnumState)
    (hok : ∀ k, k ≤ n → (drv (extIds drv k)).isSome = true)
    (hnone : drv (extIds drv (n + 1)) = none) (hfuel : n < fuel) :
    ∃ t, enumerateControls drv fd fuel s = some t ∧
      Continues fd s t ((List.range (n + 2)).map (extIds drv))
        ((List.range (n + 1)).filterMap (fun k => drv (extIds drv k))) := by
  have h0 := hok 0 (by omega)
  rw [Option.isSome_iff_exists] at h0
  obtain ⟨c, hc⟩ := h0
  have hc0 : drv V4L2_CTRL_FLAG_NEXT_CTRL = some c := hc
  obtain ⟨s1, hs1, hctrl, hcont1⟩ := enumerate_of_first_some drv fd fuel s c hc0
  obtain ⟨t, ht, hcont⟩ := extLoop_spec drv fd n fuel s1 V4L2_CTRL_FLAG_NEXT_CTRL
    (by rw [hctrl]; exact hc0)
    (fun k hk => by
      have := hok (k + 1) (by omega)
      rwa [extIds_eq_iterate] at this)
    (by rwa [extIds_eq_iterate] at hnone) hfuel
  refine ⟨t, by rw [hs1]; exact ht, ?_⟩
  have := continues_trans fd _ _ _ _ _ _ _ hcont1 hcont
  have e1 : (List.range (n + 2)).map (extIds drv) =
      [V4L2_CTRL_FLAG_NEXT_CTRL] ++
        (List.range (n + 1)).map (fun k => (nextQuery drv)^[k + 1] V4L2_CTRL_FLAG_NEXT_CTRL) := by
    rw [List.range_succ_eq_map (n + 1), List.map_cons, List.map_map]
    have : (extIds drv ∘ Nat.succ) =
        (fun k => (nextQuery drv)^[k + 1] V4L2_CTRL_FLAG_NEXT_CTRL) := by
      funext k
      exact extIds_eq_iterate drv (k + 1)
    rw [this]
    rfl
  have e2 : (fun k => drv (extIds drv k)) =
      (fun k => drv ((nextQuery drv)^[k] V4L2_CTRL_FLAG_NEXT_CTRL)) := by
    funext k
    rw [extIds_eq_iterate]
  rw [e1, e2]
  exact this

/-- The fallback path: when the first extended query fails and the private ids
`V4L2_CID_PRIVATE_BASE + k` answer for `k < n` and fail for `k = n`, the
enumeration ends after the standard scan and `n + 1` private queries. -/
theorem enumerate_fallback_spec (drv : Driver) (fd : Int) (n fuel : Nat) (s : EnumState)
    (hfirst : drv V4L2_CTRL_FLAG_NEXT_CTRL = none)
    (hok : ∀ k, k < n → (drv (V4L2_CID_PRIVATE_BASE + k)).isSome = true)
    (hnone : drv (V4L2_CID_PRIVATE_BASE + n) = none)
    (hlim : V4L2_CID_PRIVATE_BASE + n < INT_LIMIT) (hfuel : n < fuel) :
    ∃ t, enumerateControls drv fd fuel s = some t ∧
      Continues fd s t
        (V4L2_CTRL_FLAG_NEXT_CTRL :: List.range' V4L2_CID_BASE (V4L2_CID_LASTP1 - V4L2_CID_BASE)
          ++ List.range' V4L2_CID_PRIVATE_BASE (n + 1))
        ((List.range' V4L2_CID_BASE (V4L2_CID_LASTP1 - V4L2_CID_BASE)).filterMap drv
          ++ (List.range' V4L2_CID_PRIVATE_BASE n).filterMap drv) := by
  obtain ⟨s1, hs1, hcont1⟩ := enumerate_of_first_none drv fd fuel s hfirst
  obtain ⟨t, ht, hcont⟩ := privLoop_spec drv fd n fuel V4L2_CID_PRIVATE_BASE s1 hok hnone hlim hfuel
  exact ⟨t, by rw [hs1]; exact ht, continues_trans fd _ _ _ _ _ _ _ hcont1 hcont⟩

theorem next_flag_le (x : Nat) :
    V4L2_CTRL_FLAG_NEXT_CTRL ≤ (x ||| V4L2_CTRL_FLAG_NEXT_CTRL) % U32_MOD := by
  have e1 : V4L2_CTRL_FLAG_NEXT_CTRL = 2 ^ 31 := by decide
  have e2 : U32_MOD = 2 ^ 32 := rfl
  rw [e1, e2]
  apply Nat.testBit_implies_ge
  rw [Nat.testBit_mod_two_pow, Nat.testBit_or, Nat.testBit_two_pow]
  simp

theorem extIds_ge (drv : Driver) (k : Nat) : V4L2_CTRL_FLAG_NEXT_CTRL ≤ extIds drv k := by
  induction k with
  | zero => exact Nat.le_refl _
  | succ k ih =>
    rw [extIds]
    cases h : drv (extIds drv k) with
    | none => rw [nextQuery_of_none drv _ h]; exact ih
    | some c => rw [nextQuery_of_some drv _ c h]; exact next_flag_le c.id

/-- C4: a descriptor whose flags include `V4L2_CTRL_FLAG_DISABLED` leaves the
window as it was, whatever its type and other flags: no cell is added to the
layout, no control is built and no connection is made. -/
theorem add_control_disabled_unchanged (fd : Int) (mw : MainWindow) (ctrl : v4l2_queryctrl)
    (h : ctrl.flags &&& V4L2_CTRL_FLAG_DISABLED ≠ 0) : add_control fd mw ctrl = mw :=
  add_control_of_disabled fd mw ctrl ((isDisabled_eq_true_iff ctrl).2 h)

theorem add_control_disabled_unchanged_witness :
    disabledCtrl.flags &&& V4L2_CTRL_FLAG_DISABLED ≠ 0 ∧
      add_control 3 (newWindow 3 "/dev/video0" capZero) disabledCtrl =
        newWindow 3 "/dev/video0" capZero :=
  ⟨by decide, add_control_disabled_unchanged 3 _ disabledCtrl (by decide)⟩

/-- C2: for a descriptor that is not disabled, `add_control` adds one row whose
content is fixed by the type alone: an Integer, Boolean, Menu or Button type
gives the control widget of that class, a class separator gives a bold header
label and no control, and Integer64 or any other type gives the label
"Unknown control" and no control; the last two make no connection. -/
theorem add_control_dispatch (fd : Int) (mw : MainWindow) (ctrl : v4l2_queryctrl)
    (h : ctrl.flags &&& V4L2_CTRL_FLAG_DISABLED = 0) :
    (ctrl.type = V4L2_CTRL_TYPE_INTEGER →
      (add_control fd mw ctrl).layout = mw.layout ++
        [Widget.QLabel ctrl.name false,
         Widget.Control ControlClass.V4L2IntegerControl fd ctrl
           (decide (ctrl.flags &&& (V4L2_CTRL_FLAG_GRABBED ||| V4L2_CTRL_FLAG_READ_ONLY
              ||| V4L2_CTRL_FLAG_INACTIVE) = 0)),
         Widget.QPushButton "Update", Widget.QPushButton "Reset"]) ∧
    (ctrl.type = V4L2_CTRL_TYPE_BOOLEAN →
      (add_control fd mw ctrl).layout = mw.layout ++
        [Widget.QLabel ctrl.name false,
         Widget.Control ControlClass.V4L2BooleanControl fd ctrl
           (decide (ctrl.flags &&& (V4L2_CTRL_FLAG_GRABBED ||| V4L2_CTRL_FLAG_READ_ONLY
              ||| V4L2_CTRL_FLAG_INACTIVE) = 0)),
         Widget.QPushButton "Update", Widget.QPushButton "Reset"]) ∧
    (ctrl.type = V4L2_CTRL_TYPE_MENU →
      (add_control fd mw ctrl).layout = mw.layout ++
        [Widget.QLabel ctrl.name false,
         Widget.Control ControlClass.V4L2MenuControl fd ctrl
           (decide (ctrl.flags &&& (V4L2_CTRL_FLAG_GRABBED ||| V4L2_CTRL_FLAG_READ_ONLY
              ||| V4L2_CTRL_FLAG_INACTIVE) = 0)),
         Widget.QPushButton "Update", Widget.QPushButton "Reset"]) ∧
    (ctrl.type = V4L2_CTRL_TYPE_BUTTON →
      (add_control fd mw ctrl).layout = mw.layout ++
        [Widget.QLabel ctrl.name false,
         Widget.Control ControlClass.V4L2ButtonControl fd ctrl
           (decide (ctrl.flags &&& (V4L2_CTRL_FLAG_GRABBED ||| V4L2_CTRL_FLAG_READ_ONLY
              ||| V4L2_CTRL_FLAG_INACTIVE) = 0)),
         Widget.QPushButton "Update", Widget.QLabel "" false]) ∧
    (ctrl.type = V4L2_CTRL_TYPE_CTRL_CLASS →
      (add_control fd mw ctrl).layout = mw.layout ++
        [Widget.QLabel ("<b>" ++ ctrl.name ++ "</b>") true, Widget.QLabel "" false,
         Widget.QLabel "" false, Widget.QLabel "" false] ∧
      (add_control fd mw ctrl).connections = mw.connections) ∧
    (ctrl.type ≠ V4L2_CTRL_TYPE_INTEGER → ctrl.type ≠ V4L2_CTRL_TYPE_BOOLEAN →
      ctrl.type ≠ V4L2_CTRL_TYPE_MENU → ctrl.type ≠ V4L2_CTRL_TYPE_BUTTON →
      ctrl.type ≠ V4L2_CTRL_TYPE_CTRL_CLASS →
      (add_control fd mw ctrl).layout = mw.layout ++
        [Widget.QLabel ctrl.name false, Widget.QLabel "Unknown control" false,
         Widget.QLabel "" false, Widget.QLabel "" false] ∧
      (add_control fd mw ctrl).connections = mw.connections) := by
  rw [add_control_of_enabled fd mw ctrl ((isDisabled_eq_false_iff ctrl).2 h)]
  unfold rowWidgets rowConnections controlClassOf
  refine ⟨?_, ?_, ?_, ?_, ?_, ?_⟩
  · intro ht
    simp [ht, V4L2_CTRL_TYPE_INTEGER, V4L2_CTRL_TYPE_CTRL_CLASS, V4L2_CTRL_TYPE_BUTTON]
  · intro ht
    simp [ht, V4L2_CTRL_TYPE_INTEGER, V4L2_CTRL_TYPE_BOOLEAN, V4L2_CTRL_TYPE_CTRL_CLASS,
      V4L2_CTRL_TYPE_BUTTON]
  · intro ht
    simp [ht, V4L2_CTRL_TYPE_INTEGER, V4L2_CTRL_TYPE_BOOLEAN, V4L2_CTRL_TYPE_MENU,
      V4L2_CTRL_TYPE_CTRL_CLASS, V4L2_CTRL_TYPE_BUTTON]
  · intro ht
    simp [ht, V4L2_CTRL_TYPE_INTEGER, V4L2_CTRL_TYPE_BOOLEAN, V4L2_CTRL_TYPE_MENU,
      V4L2_CTRL_TYPE_CTRL_CLASS, V4L2_CTRL_TYPE_BUTTON]
  · intro ht
    simp [ht]
  · intro h1 h2 h3 h4 h6
    simp [h1, h2, h3, h4, h6]

theorem add_control_dispatch_witness :
    int64Ctrl.flags &&& V4L2_CTRL_FLAG_DISABLED = 0 ∧
      (add_control 3 (newWindow 3 "/dev/video0" capZero) int64Ctrl).layout =
        (newWindow 3 "/dev/video0" capZero).layout ++
          [Widget.QLabel "pts" false, Widget.QLabel "Unknown control" false,
           Widget.QLabel "" false, Widget.QLabel "" false] ∧
      (add_control 3 (newWindow 3 "/dev/video0" capZero) int64Ctrl).connections =
        (newWindow 3 "/dev/video0" capZero).connections :=
  ⟨by decide,
    (add_control_dispatch 3 (newWindow 3 "/dev/video0" capZero) int64Ctrl (by decide)).2.2.2.2.2
      (by decide) (by decide) (by decide) (by decide) (by decide)⟩

/-- C5: for a descriptor that is not disabled and of type Integer, Boolean, Menu
or Button, the control widget of the new row is built disabled exactly when the
flags include at least one of Grabbed, ReadOnly and Inactive. -/
theorem add_control_enabled_iff (fd : Int) (mw : MainWindow) (ctrl : v4l2_queryctrl)
    (h : ctrl.flags &&& V4L2_CTRL_FLAG_DISABLED = 0)
    (hk : ctrl.type = V4L2_CTRL_TYPE_INTEGER ∨ ctrl.type = V4L2_CTRL_TYPE_BOOLEAN ∨
      ctrl.type = V4L2_CTRL_TYPE_MENU ∨ ctrl.type = V4L2_CTRL_TYPE_BUTTON) :
    ∃ cls en last,
      (add_control fd mw ctrl).layout = mw.layout ++
        [Widget.QLabel ctrl.name false, Widget.Control cls fd ctrl en,
         Widget.QPushButton "Update", last] ∧
      (en = false ↔
        (ctrl.flags &&& V4L2_CTRL_FLAG_GRABBED ≠ 0 ∨ ctrl.flags &&& V4L2_CTRL_FLAG_READ_ONLY ≠ 0 ∨
          ctrl.flags &&& V4L2_CTRL_FLAG_INACTIVE ≠ 0)) := by
  have hen : (decide (ctrl.flags &&& (V4L2_CTRL_FLAG_GRABBED ||| V4L2_CTRL_FLAG_READ_ONLY
      ||| V4L2_CTRL_FLAG_INACTIVE) = 0) = false ↔
      (ctrl.flags &&& V4L2_CTRL_FLAG_GRABBED ≠ 0 ∨ ctrl.flags &&& V4L2_CTRL_FLAG_READ_ONLY ≠ 0 ∨
        ctrl.flags &&& V4L2_CTRL_FLAG_INACTIVE ≠ 0)) := by
    rw [decide_eq_false_iff_not, and_mask_eq_zero_iff]
    tauto
  rw [add_control_of_enabled fd mw ctrl ((isDisabled_eq_false_iff ctrl).2 h)]
  unfold rowWidgets controlClassOf
  rcases hk with ht | ht | ht | ht
  · exact ⟨ControlClass.V4L2IntegerControl, _, Widget.QPushButton "Reset", by
      simp [ht, V4L2_CTRL_TYPE_INTEGER, V4L2_CTRL_TYPE_CTRL_CLASS, V4L2_CTRL_TYPE_BUTTON], hen⟩
  · exact ⟨ControlClass.V4L2BooleanControl, _, Widget.QPushButton "Reset", by
      simp [ht, V4L2_CTRL_TYPE_INTEGER, V4L2_CTRL_TYPE_BOOLEAN, V4L2_CTRL_TYPE_CTRL_CLASS,
        V4L2_CTRL_TYPE_BUTTON], hen⟩
  · exact ⟨ControlClass.V4L2MenuControl, _, Widget.QPushButton "Reset", by
      simp [ht, V4L2_CTRL_TYPE_INTEGER, V4L2_CTRL_TYPE_BOOLEAN, V4L2_CTRL_TYPE_MENU,
        V4L2_CTRL_TYPE_CTRL_CLASS, V4L2_CTRL_TYPE_BUTTON], hen⟩
  · exact ⟨ControlClass.V4L2ButtonControl, _, Widget.QLabel "" false, by
      simp [ht, V4L2_CTRL_TYPE_INTEGER, V4L2_CTRL_TYPE_BOOLEAN, V4L2_CTRL_TYPE_MENU,
        V4L2_CTRL_TYPE_CTRL_CLASS, V4L2_CTRL_TYPE_BUTTON], hen⟩

theorem add_control_enabled_iff_witness :
    readOnlyCtrl.flags &&& V4L2_CTRL_FLAG_DISABLED = 0 ∧
    (readOnlyCtrl.type = V4L2_CTRL_TYPE_INTEGER ∨ readOnlyCtrl.type = V4L2_CTRL_TYPE_BOOLEAN ∨
      readOnlyCtrl.type = V4L2_CTRL_TYPE_MENU ∨ readOnlyCtrl.type = V4L2_CTRL_TYPE_BUTTON) ∧
    ∃ cls en last,
      (add_control 3 (newWindow 3 "/dev/video0" capZero) readOnlyCtrl).layout =
        (newWindow 3 "/dev/video0" capZero).layout ++
          [Widget.QLabel readOnlyCtrl.name false, Widget.Control cls 3 readOnlyCtrl en,
           Widget.QPushButton "Update", last] ∧
      (en = false ↔
        (readOnlyCtrl.flags &&& V4L2_CTRL_FLAG_GRABBED ≠ 0 ∨
          readOnlyCtrl.flags &&& V4L2_CTRL_FLAG_READ_ONLY ≠ 0 ∨
          readOnlyCtrl.flags &&& V4L2_CTRL_FLAG_INACTIVE ≠ 0)) :=
  ⟨by decide, by decide,
    add_control_enabled_iff 3 (newWindow 3 "/dev/video0" capZero) readOnlyCtrl (by decide)
      (by decide)⟩

/-- C3: after `add_control` has run on any sequence of descriptors, the
receivers connected to the "Reset > All" action are exactly the cells holding an
Integer, Boolean or Menu control (slot `resetToDefault`), and the receivers
connected to `updateNow` are exactly the cells holding an Integer, Boolean, Menu
or Button control (slot `updateStatus`); labels, push buttons and placeholders
are connected to neither. -/
theorem broadcast_subscribers (fd : Int) (name : String) (cap : v4l2_capability)
    (ds : List v4l2_queryctrl) :
    receiversOf Sender.resetAllId Signal.triggered
        (ds.foldl (add_control fd) (newWindow fd name cap)).connections =
      (controlCellsFrom isValueControl 0
        (ds.foldl (add_control fd) (newWindow fd name cap)).layout).map
          (fun i => (i, Slot.resetToDefault)) ∧
    receiversOf Sender.mainWindow Signal.updateNow
        (ds.foldl (add_control fd) (newWindow fd name cap)).connections =
      (controlCellsFrom isAnyControl 0
        (ds.foldl (add_control fd) (newWindow fd name cap)).layout).map
          (fun i => (i, Slot.updateStatus)) := by
  apply subscriptions_foldl
  · rw [newWindow_connections, newWindow_no_controls]
    rfl
  · rw [newWindow_connections, newWindow_no_controls]
    rfl

/-- C10: a header row adds four cells, `add_control` adds no cell for a disabled
descriptor and four cells otherwise, so after the five header rows and any
sequence of `add_control` calls the number of cells is a multiple of four, and
the row of the next control starts in column 0 and fills one row of the
four-column grid. -/
theorem grid_rows_of_four (fd : Int) (name : String) (cap : v4l2_capability)
    (ds : List v4l2_queryctrl) (ctrl : v4l2_queryctrl) (mw : MainWindow) (a b : String) :
    (headerRow mw a b).layout.length = mw.layout.length + 4 ∧
    (newWindow fd name cap).layout.length = 5 * 4 ∧
    (add_control fd mw ctrl).layout.length =
      mw.layout.length + (if ctrl.flags &&& V4L2_CTRL_FLAG_DISABLED ≠ 0 then 0 else 4) ∧
    (∃ row, (add_control fd mw ctrl).layout = mw.layout ++ row) ∧
    (ds.foldl (add_control fd) (newWindow fd name cap)).layout.length % 4 = 0 ∧
    (∀ j, j < 4 →
      ((ds.foldl (add_control fd) (newWindow fd name cap)).layout.length + j) / 4 =
        (ds.foldl (add_control fd) (newWindow fd name cap)).layout.length / 4 ∧
      ((ds.foldl (add_control fd) (newWindow fd name cap)).layout.length + j) % 4 = j) := by
  have hmod := foldl_add_control_length_mod fd ds (newWindow fd name cap)
    (by rw [newWindow_layout_length])
  refine ⟨?_, ?_, ?_, ?_, hmod, ?_⟩
  · rw [headerRow_layout]
    simp
  · rw [newWindow_layout_length]
  · rw [add_control_layout_length]
    simp [isDisabled]
  · cases hd : isDisabled ctrl
    · rw [add_control_of_enabled fd mw ctrl hd]
      exact ⟨_, rfl⟩
    · rw [add_control_of_disabled fd mw ctrl hd]
      exact ⟨[], by simp⟩
  · intro j hj
    omega

/-! ## The enumeration of `openFile` -/

/-- C6: when the first extended query fails, and the private ids from
`V4L2_CID_PRIVATE_BASE` on answer up to a first failing one, the enumeration
queries every id of the standard range in ascending order, then the private ids
up to and including the first failing one and nothing after it, and passes to
`add_control` the answers of the succeeding standard ids followed by the answers
of the private ids before the failing one. -/
theorem fallback_scan_order (drv : Driver) (fd : Int) (n fuel : Nat) (s : EnumState)
    (hfirst : drv V4L2_CTRL_FLAG_NEXT_CTRL = none)
    (hok : ∀ k, k < n → (drv (V4L2_CID_PRIVATE_BASE + k)).isSome = true)
    (hnone : drv (V4L2_CID_PRIVATE_BASE + n) = none)
    (hlim : V4L2_CID_PRIVATE_BASE + n < INT_LIMIT) (hfuel : n < fuel) :
    ∃ t, enumerateControls drv fd fuel s = some t ∧
      t.queried = s.queried ++
        (V4L2_CTRL_FLAG_NEXT_CTRL :: List.range' V4L2_CID_BASE (V4L2_CID_LASTP1 - V4L2_CID_BASE)
          ++ List.range' V4L2_CID_PRIVATE_BASE (n + 1)) ∧
      t.added = s.added ++
        ((List.range' V4L2_CID_BASE (V4L2_CID_LASTP1 - V4L2_CID_BASE)).filterMap drv
          ++ (List.range' V4L2_CID_PRIVATE_BASE n).filterMap drv) ∧
      t.mw = ((List.range' V4L2_CID_BASE (V4L2_CID_LASTP1 - V4L2_CID_BASE)).filterMap drv
          ++ (List.range' V4L2_CID_PRIVATE_BASE n).filterMap drv).foldl (add_control fd) s.mw := by
  obtain ⟨t, ht, h1, h2, h3⟩ := enumerate_fallback_spec drv fd n fuel s hfirst hok hnone hlim hfuel
  exact ⟨t, ht, h1, h2, h3⟩

theorem fallback_scan_order_witness :
    ∃ t, enumerateControls (mockDriver false legacyControls) 3 2 startState = some t ∧
      t.queried = startState.queried ++
        (V4L2_CTRL_FLAG_NEXT_CTRL :: List.range' V4L2_CID_BASE (V4L2_CID_LASTP1 - V4L2_CID_BASE)
          ++ List.range' V4L2_CID_PRIVATE_BASE (1 + 1)) ∧
      t.added = startState.added ++
        ((List.range' V4L2_CID_BASE (V4L2_CID_LASTP1 - V4L2_CID_BASE)).filterMap
            (mockDriver false legacyControls)
          ++ (List.range' V4L2_CID_PRIVATE_BASE 1).filterMap (mockDriver false legacyControls)) ∧
      t.mw = ((List.range' V4L2_CID_BASE (V4L2_CID_LASTP1 - V4L2_CID_BASE)).filterMap
            (mockDriver false legacyControls)
          ++ (List.range' V4L2_CID_PRIVATE_BASE 1).filterMap
            (mockDriver false legacyControls)).foldl (add_control 3) startState.mw :=
  fallback_scan_order (mockDriver false legacyControls) 3 1 2 startState (by decide) (by decide)
    (by decide) (by decide) (by decide)

/-- C7: the first control query has id `V4L2_CTRL_FLAG_NEXT_CTRL`.  When it and
the `n` queries after it succeed and the one after those fails, each query id is
the id returned by the query before it with the flag or-ed in, the answers are
passed to `add_control` in query order, the enumeration stops with the failing
query, and no query without the flag (no id of the standard or private scan) is
made.  When the first query fails, the run is the private scan entered after the
scan of the whole standard range. -/
theorem extended_query_order (drv : Driver) (fd : Int) (s : EnumState) :
    (extIds drv 0 = V4L2_CTRL_FLAG_NEXT_CTRL ∧
      ∀ k c, drv (extIds drv k) = some c →
        extIds drv (k + 1) = (c.id ||| V4L2_CTRL_FLAG_NEXT_CTRL) % U32_MOD) ∧
    (∀ n fuel, (∀ k, k ≤ n → (drv (extIds drv k)).isSome = true) →
      drv (extIds drv (n + 1)) = none → n < fuel →
      ∃ t, enumerateControls drv fd fuel s = some t ∧
        t.queried = s.queried ++ (List.range (n + 2)).map (extIds drv) ∧
        t.added = s.added ++ (List.range (n + 1)).filterMap (fun k => drv (extIds drv k)) ∧
        t.mw = ((List.range (n + 1)).filterMap (fun k => drv (extIds drv k))).foldl
          (add_control fd) s.mw ∧
        ∀ q, q ∈ (List.range (n + 2)).map (extIds drv) → V4L2_CTRL_FLAG_NEXT_CTRL ≤ q) ∧
    (drv V4L2_CTRL_FLAG_NEXT_CTRL = none →
      ∀ fuel, ∃ t, enumerateControls drv fd fuel s = privLoop drv fd fuel V4L2_CID_PRIVATE_BASE t ∧
        t.queried = s.queried ++
          (V4L2_CTRL_FLAG_NEXT_CTRL ::
            List.range' V4L2_CID_BASE (V4L2_CID_LASTP1 - V4L2_CID_BASE))) := by
  refine ⟨⟨rfl, fun k c hc => ?_⟩, fun n fuel hok hnone hfuel => ?_, fun hfirst fuel => ?_⟩
  · rw [extIds, nextQuery_of_some drv _ c hc]
  · obtain ⟨t, ht, h1, h2, h3⟩ := enumerate_ext_spec drv fd n fuel s hok hnone hfuel
    refine ⟨t, ht, h1, h2, h3, fun q hq => ?_⟩
    rw [List.mem_map] at hq
    obtain ⟨k, _, rfl⟩ := hq
    exact extIds_ge drv k
  · obtain ⟨t, ht, h1, _, _⟩ := enumerate_of_first_none drv fd fuel s hfirst
    exact ⟨t, ht, h1⟩

theorem extended_query_order_witness :
    ∃ t, enumerateControls (mockDriver true scenarioControls) 3 3 startState = some t ∧
      t.queried = startState.queried ++
        (List.range (2 + 2)).map (extIds (mockDriver true scenarioControls)) ∧
      t.added = startState.added ++ (List.range (2 + 1)).filterMap
        (fun k => mockDriver true scenarioControls (extIds (mockDriver true scenarioControls) k)) ∧
      t.mw = ((List.range (2 + 1)).filterMap
        (fun k => mockDriver true scenarioControls
          (extIds (mockDriver true scenarioControls) k))).foldl (add_control 3) startState.mw ∧
      ∀ q, q ∈ (List.range (2 + 2)).map (extIds (mockDriver true scenarioControls)) →
        V4L2_CTRL_FLAG_NEXT_CTRL ≤ q :=
  (extended_query_order (mockDriver true scenarioControls) 3 startState).2.1 2 3
    (by decide) (by decide) (by decide)

end V4l2ucp
